import Mathlib

/-!
# Verification of the SmartOrchestrator core (src/orchestrator/app/orchestrator.py)

Shallow embedding of the capability-based request router:
* the agent registry (a Python dict, modelled as an insertion-ordered
  association list with unique keys),
* the derived skill-keyword index (`_update_skill_keywords`),
* the scoring engine (`_calculate_agent_score`, `_skill_matches_request`),
* the two-stage routing pipeline (`_analyze_request`, `_route_to_agent`,
  `process_request`),
* the protocol forwarder (`_forward_request_to_agent`) with its 30-attempt
  poll loop, parameterised by network oracles (the responses the remote
  endpoint would give), since the network itself is outside the program.

Python floats only ever take values that are exact in this program
(sums of 1.0 and 1.5, divided by 5.0, capped at 1.0), so scores and
confidence are modelled as rationals.
-/

set_option autoImplicit false

namespace Orchestrator

/-- Is `needle` a prefix of `hay` (as character lists)? -/
def charsPrefix : List Char → List Char → Bool
  | [], _ => true
  | _ :: _, [] => false
  | a :: as, b :: bs => a = b && charsPrefix as bs

/-- Does `needle` occur contiguously inside `hay`? -/
def charsInfix (needle : List Char) : List Char → Bool
  | [] => needle.isEmpty
  | h :: t => charsPrefix needle (h :: t) || charsInfix needle t

/-- Python substring test `needle in hay` (on already-prepared strings). -/
def strContains (hay needle : String) : Bool :=
  charsInfix needle.data hay.data

/-- Python `s.lower()` (charwise; same as `String.toLower`, but defined
by structural recursion so proofs can evaluate it). -/
def pyLower (s : String) : String :=
  ⟨s.data.map Char.toLower⟩

/-- Python `s.replace("_", " ")` — single-character pattern, so a charwise map. -/
def replaceUnderscores (s : String) : String :=
  ⟨s.data.map (fun c => if c = '_' then ' ' else c)⟩

/-- Helper of `pyWords`: split on whitespace runs, dropping empties. -/
def pyWordsAux : List Char → List Char → List String
  | [], acc => if acc.isEmpty then [] else [⟨acc.reverse⟩]
  | c :: cs, acc =>
    if c.isWhitespace then
      if acc.isEmpty then pyWordsAux cs []
      else ⟨acc.reverse⟩ :: pyWordsAux cs []
    else pyWordsAux cs (c :: acc)

/-- Python `s.split()` with no argument: split on whitespace runs, with
no empty tokens. -/
def pyWords (s : String) : List String :=
  pyWordsAux s.data []

/-! ## JSON values (the duck-typed payloads the forwarder manipulates) -/

/-- A JSON-ish value as the Python code sees a parsed response body. -/
inductive Json where
  | null : Json
  | bool : Bool → Json
  | num : Int → Json
  | str : String → Json
  | arr : List Json → Json
  | obj : List (String × Json) → Json

namespace Json

/-- Python `key in d` for a dict. -/
def hasKey (j : Json) (k : String) : Bool :=
  match j with
  | .obj fs => fs.any (fun p => p.1 = k)
  | _ => false

/-- Python `d.get(key)` returning `None` when absent (or when not a dict). -/
def get? (j : Json) (k : String) : Option Json :=
  match j with
  | .obj fs => (fs.find? (fun p => p.1 = k)).map Prod.snd
  | _ => none

/-- Python `d.get(key, default)`. -/
def getD (j : Json) (k : String) (d : Json) : Json :=
  (j.get? k).getD d

/-- Python truthiness of a parsed JSON value. -/
def truthy : Json → Bool
  | .null => false
  | .bool b => b
  | .num n => n ≠ 0
  | .str s => s ≠ ""
  | .arr xs => !xs.isEmpty
  | .obj fs => !fs.isEmpty

/-- Does this value equal the JSON string `s`? (`x == "s"` in Python). -/
def isStr (j : Json) (s : String) : Bool :=
  match j with
  | .str t => t = s
  | _ => false

/-- Elements of a JSON array; non-arrays yield no elements. -/
def getArr : Json → List Json
  | .arr xs => xs
  | _ => []

/-- Comparison `x == "s"` where `x` may be `None` (an absent field). -/
def optIsStr (o : Option Json) (s : String) : Bool :=
  match o with
  | some j => j.isStr s
  | none => false

mutual

/-- Rendering used when a JSON value is interpolated into an f-string. -/
def render : Json → String
  | .null => "None"
  | .bool b => if b then "True" else "False"
  | .num n => toString n
  | .str s => s
  | .arr xs => "[" ++ renderArr xs ++ "]"
  | .obj fs => "\x7b" ++ renderObj fs ++ "\x7d"

def renderArr : List Json → String
  | [] => ""
  | [x] => render x
  | x :: xs => render x ++ ", " ++ renderArr xs

def renderObj : List (String × Json) → String
  | [] => ""
  | [(k, v)] => k ++ ": " ++ render v
  | (k, v) :: fs => k ++ ": " ++ render v ++ ", " ++ renderObj fs

end

/-- The string content of a JSON value when it is returned as response text. -/
def asString (j : Json) : String :=
  match j with
  | .str s => s
  | _ => render j

end Json

/-! ## Data model: `AgentSkill`, `AgentCard`, the registry dict -/

/-- The fields of `a2a.types.AgentSkill` the orchestrator reads. -/
structure AgentSkill where
  name : String
  description : Option String
  tags : Option (List String)
deriving DecidableEq, Repr

/-- The fields of `a2a.types.AgentCard` the orchestrator reads. -/
structure AgentCard where
  name : String
  url : String
  skills : List AgentSkill
deriving DecidableEq, Repr

/-- The dict `self.agents : Dict[str, AgentCard]` — a Python dict in insertion order. -/
abbrev Registry := List (String × AgentCard)

/-- Python dict lookup `d[k]` as an option. -/
def dictGet? (d : Registry) (k : String) : Option AgentCard :=
  (d.find? (fun p => p.1 = k)).map Prod.snd

/-- Python dict assignment `d[k] = v`: replace in place, else append. -/
def dictInsert (d : Registry) (k : String) (v : AgentCard) : Registry :=
  if d.any (fun p => p.1 = k) then
    d.map (fun p => if p.1 = k then (k, v) else p)
  else
    d ++ [(k, v)]

/-- Python `del d[k]` (keys are unique in a dict). -/
def dictErase (d : Registry) (k : String) : Registry :=
  d.filter (fun p => p.1 ≠ k)

/-- The keys of the registry, in order. -/
def dictKeys (d : Registry) : List String := d.map Prod.fst

/-! ## `_update_skill_keywords`: the capability index -/

/-- The dict `self.skill_keywords : Dict[str, List[str]]`. -/
abbrev SkillKW := List (String × List String)

/-- Lookup `self.skill_keywords.get(k, [])`. -/
def kwGet (idx : SkillKW) (k : String) : List String :=
  ((idx.find? (fun p => p.1 = k)).map Prod.snd).getD []

/-- Replace the keyword list stored under key `k` (the key is present). -/
def kwSet (idx : SkillKW) (k : String) (v : List String) : SkillKW :=
  idx.map (fun p => if p.1 = k then (k, v) else p)

/-- The `w.lower() not in [kw.lower() for kw in ks]` guard before appending. -/
def kwAddLower (ks : List String) (w : String) : List String :=
  if (ks.map pyLower).contains (pyLower w) then ks else ks ++ [pyLower w]

/-- The inner loop body of `_update_skill_keywords` for one skill:
initialise the entry if missing, then append tag keywords, the normalised
skill name, and the first three description words (length > 2). -/
def updateSkillForIndex (idx : SkillKW) (skill : AgentSkill) : SkillKW :=
  let idx := if idx.any (fun p => p.1 = skill.name) then idx
             else idx ++ [(skill.name, [])]
  let ks := kwGet idx skill.name
  let ks := (skill.tags.getD []).foldl kwAddLower ks
  let snl := replaceUnderscores (pyLower skill.name)
  let ks := if (ks.map pyLower).contains snl then ks else ks ++ [snl]
  let ks :=
    match skill.description with
    | none => ks
    | some d =>
        if d = "" then ks
        else
          (pyWords (pyLower d)).take 3
            |>.foldl (fun ks w =>
                if w.length > 2 && !((ks.map pyLower).contains w) then
                  ks ++ [w]
                else ks) ks
  kwSet idx skill.name ks

/-- Model of `_update_skill_keywords`: rebuild the index from scratch over all
agents and all their skills. -/
def update_skill_keywords (agents : Registry) : SkillKW :=
  agents.foldl (fun idx p => p.2.skills.foldl updateSkillForIndex idx) []

/-! ## Scoring engine -/

/-- The comprehension `[tag for skill in agent_card.skills for tag in (skill.tags or [])]`. -/
def agentTags (agent_card : AgentCard) : List String :=
  agent_card.skills.foldr (fun skill acc => skill.tags.getD [] ++ acc) []

/-- Model of `_skill_matches_request`: any keyword of `skill_keywords.get(name, [])`
is a substring of the lower-cased request. -/
def skill_matches_request (skw : SkillKW) (skill_name request : String) : Bool :=
  let keywords := kwGet skw skill_name
  let request_lower := pyLower request
  keywords.any (fun keyword => strContains request_lower keyword)

/-- Model of `_calculate_agent_score`: +1.0 per skill tag that occurs (lower-cased)
in the request, +1.5 per skill whose keyword set matches the request;
returns the total and the matched skill names. -/
def calculate_agent_score (skw : SkillKW) (request : String)
    (agent_card : AgentCard) : ℚ × List String :=
  let request_lower := pyLower request
  let keywords := agentTags agent_card
  let score := keywords.foldl
    (fun score keyword =>
      if strContains request_lower (pyLower keyword) then score + 1 else score)
    (0 : ℚ)
  let (score, matched_skills) := agent_card.skills.foldl
    (fun (p : ℚ × List String) skill =>
      if skill_matches_request skw skill.name request then
        (p.1 + 3/2, p.2 ++ [skill.name])
      else p)
    (score, [])
  (score, matched_skills)

/-! ## Analyze stage -/

/-- One iteration of the per-agent loop of `_analyze_request`: score the
agent, record its matched skills, and keep it as best only if its score
is strictly higher than the best seen so far. -/
def selectStep (skw : SkillKW) (request : String)
    (acc : Option String × ℚ × List (String × List String))
    (p : String × AgentCard) :
    Option String × ℚ × List (String × List String) :=
  let (best_agent, best_score, skill_matches) := acc
  let (score, matched_skills) := calculate_agent_score skw request p.2
  let skill_matches := skill_matches ++ [(p.1, matched_skills)]
  if score > best_score then (some p.1, score, skill_matches)
  else (best_agent, best_score, skill_matches)

/-- The per-agent loop of `_analyze_request`: fold over the registry in
iteration order, keeping the first strictly-highest scorer; also collect
the per-agent matched-skill lists (`skill_matches`). -/
def selectBest (agents : Registry) (skw : SkillKW) (request : String) :
    Option String × ℚ × List (String × List String) :=
  agents.foldl (selectStep skw request) (none, 0, [])

/-- Lookup `skill_matches.get(selected_agent, [])`. -/
def smGet (sm : List (String × List String)) (k : String) : List String :=
  ((sm.find? (fun p => p.1 = k)).map Prod.snd).getD []

/-- Model of `_generate_reasoning`: looks the selected agent up in the registry
(`self.agents[selected_agent]` — a `KeyError` if absent, modelled as
`Except.error`), then builds the reasoning string from matched keywords
and matched skills. -/
def generate_reasoning (agents : Registry) (request selected_agent : String)
    (skill_matches : List (String × List String)) : Except String String :=
  match dictGet? agents selected_agent with
  | none => .error ("'" ++ selected_agent ++ "'")
  | some agent_card =>
    let request_lower := pyLower request
    let keywords := agentTags agent_card
    let matched_keywords := keywords.filter
      (fun keyword => strContains request_lower (pyLower keyword))
    let matched_skills := smGet skill_matches selected_agent
    let parts := ["Selected " ++ agent_card.name]
    let parts := if !matched_keywords.isEmpty then
        parts ++ ["based on keywords: " ++ String.intercalate ", " matched_keywords]
      else parts
    let parts := if !matched_skills.isEmpty then
        (if !matched_keywords.isEmpty then
          parts ++ ["and skills: " ++ String.intercalate ", " matched_skills]
        else
          parts ++ ["based on skills: " ++ String.intercalate ", " matched_skills])
      else parts
    let parts := if matched_keywords.isEmpty && matched_skills.isEmpty then
        parts ++ ["using default ArgoCD agent"]
      else parts
    .ok (String.intercalate " " parts)

/-- The analyze stage's contribution to the route state. -/
structure Analyzed where
  selected_agent : String
  confidence : ℚ
  reasoning : String
deriving DecidableEq, Repr

/-- Model of `_analyze_request`: score every agent, fall back to `"argocd"` with
score 0.3 when no agent scored above 0, set
`confidence = min(best_score / 5.0, 1.0)` and generate reasoning.
The reasoning step can raise `KeyError` (when the selected identity is
not a registry key), which propagates out of the stage. -/
def analyze_request (agents : Registry) (skw : SkillKW) (request : String) :
    Except String Analyzed :=
  let (best_agent?, best_score, skill_matches) := selectBest agents skw request
  let (best_agent, best_score) :=
    match best_agent? with
    | none => ("argocd", (3/10 : ℚ))
    | some a => (a, best_score)
  let confidence := min (best_score / 5) 1
  (generate_reasoning agents request best_agent skill_matches).map
    (fun reasoning =>
      { selected_agent := best_agent, confidence := confidence,
        reasoning := reasoning })

/-! ## Registry mutations -/

/-- Mutable orchestrator state: the registry and the derived index. -/
structure OrchState where
  agents : Registry
  skill_keywords : SkillKW
deriving DecidableEq, Repr

/-- Model of `add_agent`: `self.agents[agent_id] = agent_card` then rebuild keywords. -/
def add_agent (o : OrchState) (agent_id : String) (agent_card : AgentCard) :
    OrchState :=
  let agents := dictInsert o.agents agent_id agent_card
  { agents := agents, skill_keywords := update_skill_keywords agents }

/-- Model of `register_agent`, with the card-fetch outcome as a parameter (`none`
models an unreachable endpoint / invalid card): on success the card is
stored under `agent_card.name` and the index rebuilt; on failure the
state is unchanged and an error result returned. -/
def register_agent (o : OrchState) (fetched : Option AgentCard) :
    OrchState × Bool :=
  match fetched with
  | some agent_card =>
    let agents := dictInsert o.agents agent_card.name agent_card
    ({ agents := agents, skill_keywords := update_skill_keywords agents }, true)
  | none => (o, false)

/-- The if/elif chain of `unregister_agent` for one registry entry:
match by agent id, by exact url, by case-insensitive name, or by
substring of the url. -/
def matchesIdentifier (agent_identifier agent_id : String)
    (agent_card : AgentCard) : Bool :=
  agent_id = agent_identifier ||
  agent_card.url = agent_identifier ||
  pyLower agent_card.name = pyLower agent_identifier ||
  strContains agent_card.url agent_identifier

/-- The result dict of `unregister_agent` (the fields the claims read). -/
structure UnregResult where
  success : Bool
  agent_id : Option String
  error : Option String
deriving DecidableEq, Repr

/-- Model of `unregister_agent`: scan the registry in iteration order; the first
entry matching the identifier in any of the four forms is removed and the
index rebuilt; otherwise the state is unchanged and an "Agent not found"
error is returned. -/
def unregister_agent (o : OrchState) (agent_identifier : String) :
    OrchState × UnregResult :=
  match o.agents.find?
      (fun p => matchesIdentifier agent_identifier p.1 p.2) with
  | some p =>
    let agents := dictErase o.agents p.1
    ({ agents := agents, skill_keywords := update_skill_keywords agents },
     { success := true, agent_id := some p.1, error := none })
  | none =>
    (o, { success := false, agent_id := none,
          error := some ("Agent not found: " ++ agent_identifier ++
            ". Available agents: " ++
            String.intercalate ", " (dictKeys o.agents)) })

/-! ## Protocol forwarder (`_forward_request_to_agent`)

The network is an oracle: for an endpoint, the response to the initial
`message/send` POST and, for each poll attempt `n`, the response to the
`n`-th `tasks/get` POST. `Except.error` on a response models
`raise_for_status()` raising `httpx.HTTPStatusError`. -/

/-- An `httpx.HTTPStatusError`: response status code and body text. -/
structure HttpErr where
  status : Nat
  text : String
deriving DecidableEq, Repr

/-- Exceptions inside the forwarder's `try` block: an
`httpx.HTTPStatusError` or a plain `Exception` with a message. -/
inductive Exc where
  | http : HttpErr → Exc
  | exc : String → Exc
deriving DecidableEq, Repr

/-- What one iteration of the poll loop does to control flow. -/
inductive PollOutcome where
  | ret : String → PollOutcome
  | raiseExc : Exc → PollOutcome
  | cont : PollOutcome
deriving DecidableEq, Repr

/-- Scan `parts` for the first entry whose `field` equals `"text"` and
return its `text` value (with the given Python default). -/
def firstText (field dflt : String) : List Json → Option String
  | [] => none
  | part :: rest =>
    if (part.getD field .null).isStr "text" then
      some ((part.getD "text" (.str dflt)).asString)
    else firstText field dflt rest

/-- The Python type name of a parsed JSON value, for error messages. -/
def pyTypeName : Json → String
  | .null => "NoneType"
  | .bool _ => "bool"
  | .num _ => "int"
  | .str _ => "str"
  | .arr _ => "list"
  | .obj _ => "dict"

/-- Python `"k" in x`: key membership on a dict, substring test on a
string, element membership on a list, `TypeError` otherwise. -/
def pyInStr (k : String) : Json → Except String Bool
  | .obj fs => .ok (fs.any (fun p => p.1 = k))
  | .str s => .ok (strContains s k)
  | .arr xs => .ok (xs.any (fun x => x.isStr k))
  | j => .error ("argument of type '" ++ pyTypeName j ++
      "' is not iterable")

/-- Python `x["k"]` with a string key: dict lookup (`KeyError` when
absent), `TypeError` on any non-dict value. -/
def pyIndexStr (k : String) : Json → Except String Json
  | .obj fs =>
    match (fs.find? (fun p => p.1 = k)).map Prod.snd with
    | some v => .ok v
    | none => .error ("KeyError: '" ++ k ++ "'")
  | .str _ => .error "string indices must be integers"
  | .arr _ => .error "list indices must be integers or slices, not str"
  | j => .error ("'" ++ pyTypeName j ++ "' object is not subscriptable")

/-- Python `x.get(k, default)`: dict lookup with default, and
`AttributeError` on any non-dict value (the duck-typing error path). -/
def pyGet (x : Json) (k : String) (dflt : Json) : Except String Json :=
  match x with
  | .obj fs => .ok (((fs.find? (fun p => p.1 = k)).map Prod.snd).getD dflt)
  | j => .error ("'" ++ pyTypeName j ++ "' object has no attribute 'get'")

/-- Python `for y in x`: list elements, a string's characters, a dict's
keys; `TypeError` on any other value. -/
def pyIter : Json → Except String (List Json)
  | .arr xs => .ok xs
  | .str s => .ok (s.data.map (fun c => .str (String.mk [c])))
  | .obj fs => .ok (fs.map (fun p => .str p.1))
  | j => .error ("'" ++ pyTypeName j ++ "' object is not iterable")

/-- Exception-aware scan of `parts` for the first entry whose `field`
equals `"text"`, returning its `text` value (with the given Python
default); `part.get(...)` raises on non-dict parts. -/
def firstTextE (field dflt : String) : List Json → Except String (Option String)
  | [] => .ok none
  | part :: rest =>
    match pyGet part field .null with
    | .error m => .error m
    | .ok kind =>
      if kind.isStr "text" then
        match pyGet part "text" (.str dflt) with
        | .error m => .error m
        | .ok t => .ok (some t.asString)
      else firstTextE field dflt rest

/-- Exception-aware artifact scan: first text part across all artifacts,
in artifact order then part order. -/
def artifactsTextE : List Json → Except String (Option String)
  | [] => .ok none
  | artifact :: rest =>
    match pyGet artifact "parts" (.arr []) with
    | .error m => .error m
    | .ok parts =>
      match pyIter parts with
      | .error m => .error m
      | .ok ps =>
        match firstTextE "kind" "No text in response" ps with
        | .error m => .error m
        | .ok (some t) => .ok (some t)
        | .ok none => artifactsTextE rest

/-- The `completed` branch of the poll loop: `task_data` is a dict here;
`artifacts` is iterated only when truthy, and the sentinel is returned
when no text part is found. -/
def completedText (task_data : Json) : Except String String :=
  let artifacts := task_data.getD "artifacts" (.arr [])
  if artifacts.truthy then
    match pyIter artifacts with
    | .error m => .error m
    | .ok arts =>
      match artifactsTextE arts with
      | .error m => .error m
      | .ok (some t) => .ok t
      | .ok none => .ok "Task completed but no response text found"
  else .ok "Task completed but no response text found"

/-- The `input-required` branch of the poll loop:
`task_data.get("status", {}).get("message", {})`, then the first text
part of the message (each `.get` may raise on a non-dict value). -/
def inputRequiredText (task_data : Json) : Except String String :=
  match pyGet task_data "status" (.obj []) with
  | .error m => .error m
  | .ok status =>
    match pyGet status "message" (.obj []) with
    | .error m => .error m
    | .ok status_message =>
      if status_message.truthy then
        match pyGet status_message "parts" (.arr []) with
        | .error m => .error m
        | .ok parts =>
          match pyIter parts with
          | .error m => .error m
          | .ok ps =>
            match firstTextE "kind" "No text in input-required response" ps with
            | .error m => .error m
            | .ok (some t) => .ok t
            | .ok none => .ok "Agent requires input but no message provided"
      else .ok "Agent requires input but no message provided"

/-- The prelude of one poll iteration:
`if "result" in get_result and get_result["result"]:` followed by
`task_state = task_data.get("status", {}).get("state")`. `none` means
the iteration just continues (no or falsy `result`); otherwise the task
data and the reported state value (null when the key is absent) are
returned; `.error` models a raised `TypeError`/`AttributeError`. -/
def pollTaskState (get_result : Json) : Except String (Option (Json × Json)) :=
  match pyInStr "result" get_result with
  | .error m => .error m
  | .ok false => .ok none
  | .ok true =>
    match pyIndexStr "result" get_result with
    | .error m => .error m
    | .ok task_data =>
      if !task_data.truthy then .ok none
      else
        match pyGet task_data "status" (.obj []) with
        | .error m => .error m
        | .ok status =>
          match pyGet status "state" .null with
          | .error m => .error m
          | .ok task_state => .ok (some (task_data, task_state))

/-- One iteration of the poll loop of `_forward_request_to_agent`:
check the `tasks/get` response and either return a response string,
raise, or continue polling. A raised `AttributeError`/`TypeError` from
the duck-typed accesses escapes the loop like any other exception. -/
def pollOnce (resp : Except HttpErr Json) : PollOutcome :=
  match resp with
  | .error e => .raiseExc (.http e)
  | .ok get_result =>
    match pollTaskState get_result with
    | .error m => .raiseExc (.exc m)
    | .ok none => .cont
    | .ok (some (task_data, task_state)) =>
      if task_state.isStr "completed" then
        match completedText task_data with
        | .error m => .raiseExc (.exc m)
        | .ok s => .ret s
      else if task_state.isStr "failed" then
        .ret "Agent task failed"
      else if task_state.isStr "input-required" then
        match inputRequiredText task_data with
        | .error m => .raiseExc (.exc m)
        | .ok s => .ret s
      else .cont

/-- The loop `for attempt in range(30)`: run poll iterations until one returns or
raises, or the fuel runs out; returns the result together with the number
of poll attempts performed (each attempt is preceded by a one-second
`asyncio.sleep(1)`, so the attempt count is also the seconds slept). -/
def pollLoop (polls : Nat → Except HttpErr Json) :
    Nat → Nat → Except Exc String × Nat
  | attempt, 0 => (.ok "Task did not complete within timeout", attempt)
  | attempt, fuel + 1 =>
    match pollOnce (polls attempt) with
    | .ret s => (.ok s, attempt + 1)
    | .raiseExc e => (.error e, attempt + 1)
    | .cont => pollLoop polls (attempt + 1) fuel

/-- The body of the forwarder's `try` block: check the `message/send`
response envelope, then dispatch on the duck-typed `result` shape
(Task → poll loop, Message → extract text, anything else → the literal
"Unexpected response format from agent"). -/
def forward_inner (send : Except HttpErr Json)
    (polls : Nat → Except HttpErr Json) : Except Exc String :=
  match send with
  | .error e => .error (.http e)
  | .ok result =>
    if result.hasKey "error" then
      .error (.exc ("Agent returned error: " ++
        (result.getD "error" .null).render))
    else if !result.hasKey "result" then
      .error (.exc "No result in agent response")
    else
      let message_result := result.getD "result" .null
      match message_result with
      | .obj _ =>
        if message_result.hasKey "id" && message_result.hasKey "status" then
          (pollLoop polls 0 30).1
        else if message_result.hasKey "parts" then
          .ok ((firstText "type" "No text in message"
              (message_result.getD "parts" (.arr [])).getArr).getD
            "Message received but no text content")
        else .ok "Unexpected response format from agent"
      | _ => .ok "Unexpected response format from agent"

/-- Model of `_forward_request_to_agent` with its two `except` handlers:
`httpx.HTTPStatusError` becomes `HTTP error <code>: <text>`, any other
exception is wrapped as `Request forwarding failed: <msg>`. -/
def forward_request_to_agent (send : Except HttpErr Json)
    (polls : Nat → Except HttpErr Json) : Except String String :=
  match forward_inner send polls with
  | .ok s => .ok s
  | .error (.http e) =>
    .error ("HTTP error " ++ toString e.status ++ ": " ++ e.text)
  | .error (.exc m) => .error ("Request forwarding failed: " ++ m)

/-! ## Route stage and `process_request` -/

/-- Network behaviour per endpoint: the `message/send` response and the
poll responses. -/
def NetBehavior := String → Except HttpErr Json × (Nat → Except HttpErr Json)

/-- A `"%.2f"`-style rendering of a confidence value (all confidence values
produced by the code are exact hundredths). -/
def fmt2 (q : ℚ) : String :=
  let n := ⌊q * 100⌋
  let frac := (n % 100).toNat
  toString (n / 100) ++ "." ++ (if frac < 10 then "0" else "") ++ toString frac

/-- The route stage's contribution to the route state. -/
structure Routed where
  response : String
  status : String
deriving DecidableEq, Repr

/-- Model of `_route_to_agent`: look the selected agent up
(`self.agents[selected_agent]`, a `KeyError` if absent), forward the
request to its endpoint; on forwarding success record the routed response
with status `completed`, on forwarding failure fall back to the
routing-only response with status `routing_only`. -/
def route_to_agent (net : NetBehavior) (agents : Registry) (an : Analyzed)
    (_request : String) : Except String Routed :=
  match dictGet? agents an.selected_agent with
  | none => .error ("'" ++ an.selected_agent ++ "'")
  | some agent_card =>
    let endpoint := agent_card.url
    match forward_request_to_agent (net endpoint).1 (net endpoint).2 with
    | .ok actual_response =>
      .ok { response := "🎯 Routed to " ++ agent_card.name ++ " → " ++
              actual_response,
            status := "completed" }
    | .error e =>
      .ok { response :=
              "🎯 Smart Routing Decision\n\n" ++
              "✅ Selected Agent: " ++ agent_card.name ++ "\n" ++
              "🔗 Endpoint: " ++ endpoint ++ "\n" ++
              "📊 Confidence: " ++ fmt2 an.confidence ++ "\n" ++
              "🧠 Reasoning: " ++ an.reasoning ++ "\n\n" ++
              "⚠️ Could not forward request: " ++ e ++ "\n" ++
              "💡 Connect directly to " ++ agent_card.name ++ " at " ++
              endpoint,
            status := "routing_only" }

/-- The result envelope of `process_request` (the fields the claims
read; timestamps and request ids are omitted as nondeterministic). -/
structure Envelope where
  success : Bool
  selected_agent_id : Option String
  selected_agent_name : Option String
  confidence : Option ℚ
  reasoning : Option String
  response : Option String
  status : Option String
  error : Option String
deriving DecidableEq, Repr

/-- The `success: False` envelope built by `process_request`'s `except`. -/
def errEnvelope (e : String) : Envelope :=
  { success := false, selected_agent_id := none, selected_agent_name := none,
    confidence := none, reasoning := none, response := none, status := none,
    error := some e }

/-- Model of `process_request`: run analyze then route (the LangGraph workflow is a
fixed linear pipeline), look the selected agent up once more for the
envelope, and catch any exception into a `success: False` envelope. -/
def process_request (o : OrchState) (net : NetBehavior) (request : String) :
    Envelope :=
  match analyze_request o.agents o.skill_keywords request with
  | .error e => errEnvelope e
  | .ok an =>
    match route_to_agent net o.agents an request with
    | .error e => errEnvelope e
    | .ok r =>
      match dictGet? o.agents an.selected_agent with
      | none => errEnvelope ("'" ++ an.selected_agent ++ "'")
      | some agent_card =>
        { success := true,
          selected_agent_id := some an.selected_agent,
          selected_agent_name := some agent_card.name,
          confidence := some an.confidence,
          reasoning := some an.reasoning,
          response := some r.response,
          status := some r.status,
          error := none }

/-! ## Predicates and auxiliary definitions used by the theorems -/

/-- All skill names advertised by agents currently in the registry. -/
def skillNames (agents : Registry) : List String :=
  agents.foldr (fun p acc => p.2.skills.map AgentSkill.name ++ acc) []

/-- The capability-index invariant: the index key set equals the set of
skill names of agents currently in the registry. -/
def indexMatchesRegistry (o : OrchState) : Prop :=
  ∀ k, k ∈ o.skill_keywords.map Prod.fst ↔ k ∈ skillNames o.agents

/-- The task state one poll response reports, as the code reads it:
`none` when the body has no (truthy) `result` field (the loop just
continues, no state reported); `some s` when the accesses
`task_data.get("status", {}).get("state")` succeed with value `s`;
`.error` when they would raise (`TypeError`/`AttributeError`). -/
def reportedState (j : Json) : Except String (Option Json) :=
  match pollTaskState j with
  | .error m => .error m
  | .ok none => .ok none
  | .ok (some ts) => .ok (some ts.2)

/-- A poll response that is HTTP-successful, reports its state without
raising, and whose reported state is none of `completed`, `failed`,
`input-required`. -/
def pollNonTerminal (r : Except HttpErr Json) : Prop :=
  ∃ j st, r = Except.ok j ∧ reportedState j = .ok st ∧
    Json.optIsStr st "completed" = false ∧
    Json.optIsStr st "failed" = false ∧
    Json.optIsStr st "input-required" = false

/-- A `message/send` `result` value that matches neither the Task shape
(`id` and `status` keys) nor the Message shape (`parts` key). -/
def unrecognizedShape (mr : Json) : Bool :=
  match mr with
  | .obj _ => !(mr.hasKey "id" && mr.hasKey "status") && !mr.hasKey "parts"
  | _ => true

/-- Modelled from the spec: the claimed identifier resolution order of
`unregister(identifier)` — match by registry key, then by exact endpoint
URL, then by case-insensitive name, then by substring-of-endpoint, each
pass running across the whole registry before the next, first match
winning. Returns the registry key of the entry that would be removed. -/
def unregisterPriorityAcrossRegistry (agents : Registry) (ident : String) :
    Option String :=
  ((agents.find? (fun p => p.1 = ident)).map Prod.fst).orElse (fun _ =>
    ((agents.find? (fun p => p.2.url = ident)).map Prod.fst).orElse (fun _ =>
      ((agents.find? (fun p => pyLower p.2.name = pyLower ident)).map
          Prod.fst).orElse (fun _ =>
        (agents.find? (fun p => strContains p.2.url ident)).map Prod.fst)))

/-! ## Concrete fixtures for the example-based claims -/

/-- The currency skill of the worked example: tags `usd`, `inr`. -/
def currencySkill : AgentSkill :=
  { name := "currency_exchange", description := none,
    tags := some ["usd", "inr"] }

/-- The single agent of the worked example. -/
def currencyCard : AgentCard :=
  { name := "Currency Agent", url := "http://localhost:8002",
    skills := [currencySkill] }

/-- A registry holding exactly the currency agent. -/
def currencyRegistry : Registry := [("currency", currencyCard)]

/-- The orchestrator state after registering only the currency agent. -/
def currencyOrch : OrchState :=
  { agents := currencyRegistry,
    skill_keywords := update_skill_keywords currencyRegistry }

/-- The worked-example request. -/
def usdRequest : String := "how much is 10 USD in INR?"

/-- A `tasks/get` body whose task is still `working`. -/
def workingJson : Json :=
  .obj [("result", .obj [("status", .obj [("state", .str "working")])])]

/-- A `tasks/get` body whose task has `failed`. -/
def failedJson : Json :=
  .obj [("result", .obj [("status", .obj [("state", .str "failed")])])]

/-- A `message/send` body creating a task (`id` and `status` present). -/
def taskJson : Json :=
  .obj [("result",
    .obj [("id", .str "t1"), ("status", .obj [("state", .str "submitted")])])]

/-- Network oracle: every endpoint answers `message/send` with HTTP 500. -/
def net500 : NetBehavior :=
  fun _ => (.error { status := 500, text := "Internal Server Error" },
            fun _ => .ok workingJson)

/-- Network oracle: task created, then every poll reports `failed`. -/
def netFailed : NetBehavior :=
  fun _ => (.ok taskJson, fun _ => .ok failedJson)

/-- Network oracle: task created, then every poll reports `working`. -/
def netWorking : NetBehavior :=
  fun _ => (.ok taskJson, fun _ => .ok workingJson)

/-- An ArgoCD agent registered under the default fallback key. -/
def argoCard : AgentCard :=
  { name := "ArgoCD Agent", url := "http://localhost:8001",
    skills := [{ name := "sync_operations", description := none,
                 tags := some ["kubernetes", "sync"] }] }

/-- An agent whose endpoint contains the letter `a`, so that the
identifier `"b"`/`"a"` matches it by substring-of-endpoint. -/
def alphaCard : AgentCard :=
  { name := "Alpha", url := "http://x/b", skills := [] }

/-- An agent registered under the key `"b"`. -/
def betaCard : AgentCard :=
  { name := "Beta", url := "http://y/q", skills := [] }

/-- Registry where a substring match on the first entry shadows a key
match on the second. -/
def shadowOrch : OrchState :=
  { agents := [("A", alphaCard), ("b", betaCard)],
    skill_keywords := update_skill_keywords [("A", alphaCard), ("b", betaCard)] }

/-- Pre-existing agent whose url contains `"a"` as a substring. -/
def priorCard : AgentCard :=
  { name := "Prior", url := "http://x/a", skills := [] }

/-- Prior registry state for the register/unregister round-trip claim. -/
def priorOrch : OrchState :=
  { agents := [("B", priorCard)],
    skill_keywords := update_skill_keywords [("B", priorCard)] }

/-- The agent registered and then unregistered in the round-trip claim. -/
def newCard : AgentCard :=
  { name := "Newbie", url := "http://y/zzz", skills := [] }

/-- Prior agent for the round-trip witness: matches no identifier form of
the newly registered agent. -/
def benignCard : AgentCard :=
  { name := "Beta", url := "http://bee/8001", skills := [] }

/-- Prior registry state for the round-trip witness. -/
def benignOrch : OrchState :=
  { agents := [("B", benignCard)],
    skill_keywords := update_skill_keywords [("B", benignCard)] }

/-! ## Theorems -/

deriving instance DecidableEq for Except

section RatEval

attribute [local semireducible] Rat.add Rat.mul Rat.inv

/-- C1: for a registry containing exactly one agent whose skill has tags
`usd`, `inr` and name `currency_exchange`, scoring the request
`"how much is 10 USD in INR?"` returns score 3.5 (two keyword-pass
matches at 1.0 plus one skill-pass match at 1.5), that agent is selected,
and the confidence `min(3.5/5.0, 1.0)` equals 0.7. -/
theorem score_currency_example :
    calculate_agent_score (update_skill_keywords currencyRegistry) usdRequest
        currencyCard = (7/2, ["currency_exchange"]) ∧
    analyze_request currencyRegistry (update_skill_keywords currencyRegistry)
        usdRequest =
      .ok { selected_agent := "currency", confidence := 7/10,
            reasoning := "Selected Currency Agent based on keywords: " ++
              "usd, inr and skills: currency_exchange" } ∧
    min ((7/2 : ℚ) / 5) 1 = 7/10 := by
  refine ⟨by decide, by decide, by norm_num⟩

/-- C10: when a polled task reports state `failed`, the forwarder returns
the fixed string "Agent task failed" as an ordinary response rather than
raising, the route stage records status `completed`, and `process_request`
returns `success: true` — indistinguishable at the envelope level from a
successful text response. -/
theorem failed_task_reported_as_success :
    forward_request_to_agent (.ok taskJson) (fun _ => .ok failedJson) =
      .ok "Agent task failed" ∧
    process_request currencyOrch netFailed usdRequest =
      { success := true, selected_agent_id := some "currency",
        selected_agent_name := some "Currency Agent",
        confidence := some (7/10),
        reasoning := some ("Selected Currency Agent based on keywords: " ++
          "usd, inr and skills: currency_exchange"),
        response := some "🎯 Routed to Currency Agent → Agent task failed",
        status := some "completed", error := none } := by
  refine ⟨by decide, by decide⟩

/-- C2 counterexample: with zero registered agents, `process_request`
does not report the default selection with confidence 0.3 — the fallback
identity `"argocd"` is not a registry key, the reasoning lookup raises
`KeyError`, and the envelope is `success: false` with no confidence. -/
theorem empty_registry_process_fails :
    process_request { agents := [], skill_keywords := update_skill_keywords [] }
        netWorking "deploy my app" = errEnvelope "'argocd'" ∧
    (errEnvelope "'argocd'").success = false ∧
    (errEnvelope "'argocd'").confidence = none := by
  refine ⟨by decide, by decide, by decide⟩

/-- C3 counterexample: the four identifier forms are not tried pass-by-pass
across the whole registry: for identifier `"b"`, the code removes agent
`"A"` (whose url contains `"b"` as a substring) because it is scanned
first, although `"b"` is a registry key of a later entry, which the
claimed whole-registry key pass would have removed. -/
theorem unregister_scan_order_counterexample :
    (unregister_agent shadowOrch "b").2.agent_id = some "A" ∧
    unregisterPriorityAcrossRegistry shadowOrch.agents "b" = some "b" ∧
    some ("A" : String) ≠ some "b" := by
  refine ⟨by decide, by decide, by decide⟩

/-- C4 counterexample: when forwarding fails with HTTP 500, the envelope
returned by `process_request` has `success: true` (status
`routing_only`), not `success: false` as claimed. -/
theorem http500_process_success_true :
    (process_request currencyOrch net500 usdRequest).success = true ∧
    (process_request currencyOrch net500 usdRequest).status =
      some "routing_only" := by
  refine ⟨by decide, by decide⟩

/-- C7 counterexample: registering agent `"a"` over a prior registry whose
only entry has url `http://x/a` and then unregistering by the registry id
`"a"` removes the prior entry instead (substring-of-endpoint match is
checked on earlier entries before the key match on `"a"`), so the
round trip does not restore the prior registry. -/
theorem roundtrip_counterexample :
    (unregister_agent (add_agent priorOrch "a" newCard) "a").1.agents =
      [("a", newCard)] ∧
    priorOrch.agents = [("B", priorCard)] ∧
    ([("a", newCard)] : Registry) ≠ [("B", priorCard)] := by
  refine ⟨by decide, by decide, by decide⟩

/-- C8 counterexample: a `message/send` response whose `result` field has
an unrecognized shape (here the number 42) is not surfaced as a raised
error — the forwarder returns the plain string
"Unexpected response format from agent" as an ordinary response. -/
theorem unexpected_shape_returned_counterexample :
    forward_request_to_agent (.ok (.obj [("result", .num 42)]))
        (fun _ => .ok workingJson) =
      .ok "Unexpected response format from agent" := by decide

/-- A non-terminal poll response makes the loop body continue. -/
theorem pollOnce_cont_of_nonTerminal (r : Except HttpErr Json)
    (h : pollNonTerminal r) : pollOnce r = .cont := by
  obtain ⟨j, st, rfl, hst, h1, h2, h3⟩ := h
  cases hpt : pollTaskState j with
  | error m => simp [reportedState, hpt] at hst
  | ok o =>
    cases o with
    | none => simp [pollOnce, hpt]
    | some ts =>
      obtain ⟨td, s⟩ := ts
      simp only [reportedState, hpt, Except.ok.injEq] at hst
      subst hst
      simp only [Json.optIsStr] at h1 h2 h3
      simp [pollOnce, hpt, h1, h2, h3]

/-- If every poll attempt continues, the loop burns all its fuel and
returns the timeout message, having polled once per unit of fuel. -/
theorem pollLoop_cont_all (polls : Nat → Except HttpErr Json)
    (h : ∀ n, pollOnce (polls n) = .cont) :
    ∀ fuel attempt, pollLoop polls attempt fuel =
      (.ok "Task did not complete within timeout", attempt + fuel) := by
  intro fuel
  induction fuel with
  | zero => intro attempt; simp [pollLoop]
  | succ n ih =>
    intro attempt
    rw [pollLoop, h attempt]
    show pollLoop polls (attempt + 1) n = _
    rw [ih (attempt + 1), show attempt + 1 + n = attempt + (n + 1) from by omega]

/-- C5: for every polled task whose reported state never becomes
`completed`, `failed`, or `input-required`, the poll loop performs exactly
30 poll attempts (each preceded by a fixed one-second sleep) and then
terminates with the timeout result; it never blocks indefinitely. -/
theorem poll_loop_timeout (polls : Nat → Except HttpErr Json)
    (h : ∀ n, pollNonTerminal (polls n)) :
    pollLoop polls 0 30 = (.ok "Task did not complete within timeout", 30) :=
  pollLoop_cont_all polls (fun n => pollOnce_cont_of_nonTerminal _ (h n)) 30 0

/-- C5 witness: a task that always reports `working` times out after
exactly 30 attempts. -/
theorem poll_loop_timeout_witness :
    pollLoop (fun _ => .ok workingJson) 0 30 =
      (.ok "Task did not complete within timeout", 30) :=
  poll_loop_timeout (fun _ => .ok workingJson)
    (fun _ => ⟨workingJson, some (.str "working"), rfl, rfl,
      by decide, by decide, by decide⟩)

/-- Replacing a value in the index leaves the key list unchanged. -/
theorem kwSet_map_fst (idx : SkillKW) (k : String) (v : List String) :
    (kwSet idx k v).map Prod.fst = idx.map Prod.fst := by
  simp only [kwSet, List.map_map]
  refine List.map_congr_left ?_
  intro p _
  by_cases h : p.1 = k <;> simp [h]

/-- Processing one skill adds its name to the index keys when absent. -/
theorem updateSkillForIndex_map_fst (idx : SkillKW) (s : AgentSkill) :
    (updateSkillForIndex idx s).map Prod.fst =
      if idx.any (fun p => p.1 = s.name) then idx.map Prod.fst
      else idx.map Prod.fst ++ [s.name] := by
  unfold updateSkillForIndex
  by_cases h : idx.any (fun p => p.1 = s.name) <;>
    simp [h, kwSet_map_fst]

/-- Key membership after processing one skill. -/
theorem mem_updateSkillForIndex_fst (idx : SkillKW) (s : AgentSkill)
    (k : String) :
    k ∈ (updateSkillForIndex idx s).map Prod.fst ↔
      k ∈ idx.map Prod.fst ∨ k = s.name := by
  rw [updateSkillForIndex_map_fst]
  by_cases h : idx.any (fun p => p.1 = s.name)
  · simp only [h, if_true]
    constructor
    · exact Or.inl
    · rintro (hk | rfl)
      · exact hk
      · obtain ⟨p, hp, hps⟩ := List.any_eq_true.mp h
        simp only [decide_eq_true_eq] at hps
        exact List.mem_map.mpr ⟨p, hp, hps⟩
  · simp [h]

/-- Key membership after folding a list of skills into the index. -/
theorem mem_foldl_updateSkillForIndex (skills : List AgentSkill) :
    ∀ (idx : SkillKW) (k : String),
      k ∈ (skills.foldl updateSkillForIndex idx).map Prod.fst ↔
        k ∈ idx.map Prod.fst ∨ ∃ s ∈ skills, s.name = k := by
  induction skills with
  | nil => simp
  | cons s t ih =>
    intro idx k
    simp only [List.foldl_cons, ih, mem_updateSkillForIndex_fst,
      List.mem_cons]
    constructor
    · rintro ((hk | rfl) | ⟨s', hs', rfl⟩)
      · exact Or.inl hk
      · exact Or.inr ⟨s, Or.inl rfl, rfl⟩
      · exact Or.inr ⟨s', Or.inr hs', rfl⟩
    · rintro (hk | ⟨s', rfl | hs', rfl⟩)
      · exact Or.inl (Or.inl hk)
      · exact Or.inl (Or.inr rfl)
      · exact Or.inr ⟨s', hs', rfl⟩

/-- Membership in the list of all skill names of a registry. -/
theorem mem_skillNames (agents : Registry) (k : String) :
    k ∈ skillNames agents ↔ ∃ p ∈ agents, ∃ s ∈ p.2.skills, s.name = k := by
  induction agents with
  | nil => simp [skillNames]
  | cons p t ih =>
    simp only [skillNames, List.foldr_cons, List.mem_append, List.mem_map,
      List.mem_cons] at *
    constructor
    · rintro (⟨s, hs, rfl⟩ | hk)
      · exact ⟨p, Or.inl rfl, s, hs, rfl⟩
      · obtain ⟨q, hq, s, hs, rfl⟩ := ih.mp hk
        exact ⟨q, Or.inr hq, s, hs, rfl⟩
    · rintro ⟨q, rfl | hq, s, hs, rfl⟩
      · exact Or.inl ⟨s, hs, rfl⟩
      · exact Or.inr (ih.mpr ⟨q, hq, s, hs, rfl⟩)

/-- The key set of the rebuilt index is exactly the skill names of the
registry. -/
theorem mem_update_skill_keywords (agents : Registry) (k : String) :
    k ∈ (update_skill_keywords agents).map Prod.fst ↔
      k ∈ skillNames agents := by
  rw [mem_skillNames]
  suffices h : ∀ idx : SkillKW,
      k ∈ (agents.foldl
          (fun idx p => p.2.skills.foldl updateSkillForIndex idx)
          idx).map Prod.fst ↔
        k ∈ idx.map Prod.fst ∨ ∃ p ∈ agents, ∃ s ∈ p.2.skills, s.name = k by
    have := h []
    simpa [update_skill_keywords] using this
  induction agents with
  | nil => simp
  | cons p t ih =>
    intro idx
    simp only [List.foldl_cons, ih, mem_foldl_updateSkillForIndex,
      List.mem_cons]
    constructor
    · rintro ((hk | ⟨s, hs, rfl⟩) | ⟨q, hq, s, hs, rfl⟩)
      · exact Or.inl hk
      · exact Or.inr ⟨p, Or.inl rfl, s, hs, rfl⟩
      · exact Or.inr ⟨q, Or.inr hq, s, hs, rfl⟩
    · rintro (hk | ⟨q, rfl | hq, s, hs, rfl⟩)
      · exact Or.inl (Or.inl hk)
      · exact Or.inl (Or.inr ⟨s, hs, rfl⟩)
      · exact Or.inr ⟨q, hq, s, hs, rfl⟩

/-- An in-sync state satisfies the capability-index invariant. -/
theorem indexMatchesRegistry_of_sync (st : OrchState)
    (h : st.skill_keywords = update_skill_keywords st.agents) :
    indexMatchesRegistry st := by
  intro k
  rw [h]
  exact mem_update_skill_keywords _ _

/-- C6: after every registry mutation (`add_agent`, `register_agent`,
`unregister_agent`), the capability index's key set equals exactly the
set of skill names of agents currently in the registry — no key for a
skill of a removed agent remains, and no current agent's skill lacks a
key. -/
theorem index_keys_after_mutation (o : OrchState)
    (hsync : o.skill_keywords = update_skill_keywords o.agents)
    (aid : String) (card : AgentCard) (fetched : Option AgentCard)
    (ident : String) :
    indexMatchesRegistry (add_agent o aid card) ∧
    indexMatchesRegistry (register_agent o fetched).1 ∧
    indexMatchesRegistry (unregister_agent o ident).1 := by
  refine ⟨indexMatchesRegistry_of_sync _ rfl, ?_, ?_⟩
  · cases fetched with
    | some c => exact indexMatchesRegistry_of_sync _ rfl
    | none => exact indexMatchesRegistry_of_sync o hsync
  · unfold unregister_agent
    cases o.agents.find? (fun p => matchesIdentifier ident p.1 p.2) with
    | some p => exact indexMatchesRegistry_of_sync _ rfl
    | none => exact indexMatchesRegistry_of_sync o hsync

/-- C6 witness: instantiated at a concrete mutation and key. -/
theorem index_keys_after_mutation_witness :
    "currency_exchange" ∈
      (add_agent { agents := [], skill_keywords := [] } "currency"
          currencyCard).skill_keywords.map Prod.fst ↔
    "currency_exchange" ∈
      skillNames (add_agent { agents := [], skill_keywords := [] } "currency"
          currencyCard).agents :=
  (index_keys_after_mutation { agents := [], skill_keywords := [] } rfl
    "currency" currencyCard none "x").1 "currency_exchange"

/-- A scan skips a prefix on which the predicate is everywhere false. -/
theorem find?_append_of_none {α : Type} (l₁ l₂ : List α) (f : α → Bool)
    (h : ∀ q ∈ l₁, f q = false) : (l₁ ++ l₂).find? f = l₂.find? f := by
  induction l₁ with
  | nil => rfl
  | cons a t ih =>
    have ha : f a = false := h a (List.mem_cons_self a t)
    simp only [List.cons_append, List.find?_cons, ha]
    exact ih (fun q hq => h q (List.mem_cons_of_mem a hq))

/-- C3 amended: `unregister(identifier)` scans the registry entries once
in iteration order, testing each entry against the four identifier forms
(registry key, exact endpoint URL, case-insensitive name,
substring-of-endpoint); the first entry matching any form is removed —
the forms are not tried pass-by-pass across the whole registry. If no
entry matches any form, it fails with a NotFound-style error and the
registry is unchanged. -/
theorem unregister_first_entry_scan (o : OrchState) (ident : String) :
    ((∀ p ∈ o.agents, matchesIdentifier ident p.1 p.2 = false) →
      (unregister_agent o ident).1 = o ∧
      (unregister_agent o ident).2.success = false ∧
      ((unregister_agent o ident).2.error).isSome = true) ∧
    (∀ (l₁ : Registry) (p : String × AgentCard) (l₂ : Registry),
      o.agents = l₁ ++ p :: l₂ →
      (∀ q ∈ l₁, matchesIdentifier ident q.1 q.2 = false) →
      matchesIdentifier ident p.1 p.2 = true →
      (unregister_agent o ident).1.agents = dictErase o.agents p.1 ∧
      (unregister_agent o ident).2.success = true ∧
      (unregister_agent o ident).2.agent_id = some p.1) := by
  constructor
  · intro h
    have hf : o.agents.find? (fun p => matchesIdentifier ident p.1 p.2) =
        none := by
      apply List.find?_eq_none.mpr
      intro q hq
      simp [h q hq]
    simp [unregister_agent, hf]
  · intro l₁ p l₂ hsplit h₁ hp
    have hf : o.agents.find? (fun q => matchesIdentifier ident q.1 q.2) =
        some p := by
      rw [hsplit, find?_append_of_none _ _ _ h₁]
      simp [List.find?_cons, hp]
    simp [unregister_agent, hf]

/-- C3 amended witness: a miss leaves the registry unchanged; the
identifier `"alpha"` removes the first entry, matched by name. -/
theorem unregister_first_entry_scan_witness :
    ((unregister_agent shadowOrch "zzz").1 = shadowOrch ∧
      (unregister_agent shadowOrch "zzz").2.success = false ∧
      ((unregister_agent shadowOrch "zzz").2.error).isSome = true) ∧
    ((unregister_agent shadowOrch "alpha").1.agents =
        dictErase shadowOrch.agents "A" ∧
      (unregister_agent shadowOrch "alpha").2.success = true ∧
      (unregister_agent shadowOrch "alpha").2.agent_id = some "A") :=
  ⟨(unregister_first_entry_scan shadowOrch "zzz").1 (by decide),
   (unregister_first_entry_scan shadowOrch "alpha").2 []
     ("A", alphaCard) [("b", betaCard)] rfl (by decide) (by decide)⟩

/-- C7 amended: for every registry state not already containing agent A
(and in sync with its index), registering A and then unregistering it by
an identifier that matches A under any of the four forms returns the
registry and the derived capability index to their prior state — provided
no pre-existing entry matches that identifier under any of the four forms
(otherwise the scan removes the earlier matching entry instead). -/
theorem register_unregister_roundtrip (o : OrchState) (aid : String)
    (card : AgentCard) (ident : String)
    (hsync : o.skill_keywords = update_skill_keywords o.agents)
    (hnew : ∀ p ∈ o.agents, p.1 ≠ aid)
    (hnoprior : ∀ p ∈ o.agents, matchesIdentifier ident p.1 p.2 = false)
    (hmatch : matchesIdentifier ident aid card = true) :
    (unregister_agent (add_agent o aid card) ident).1 = o ∧
    (unregister_agent (add_agent o aid card) ident).2.success = true := by
  have hany : o.agents.any (fun p => p.1 = aid) = false := by
    rw [List.any_eq_false]
    intro p hp
    simp [hnew p hp]
  have hins : (add_agent o aid card).agents = o.agents ++ [(aid, card)] := by
    simp [add_agent, dictInsert, hany]
  have hf : (add_agent o aid card).agents.find?
      (fun q => matchesIdentifier ident q.1 q.2) = some (aid, card) := by
    rw [hins, find?_append_of_none _ _ _ hnoprior]
    simp [List.find?_cons, hmatch]
  have herase : dictErase (o.agents ++ [(aid, card)]) aid = o.agents := by
    rw [dictErase, List.filter_append]
    have h2 : List.filter (fun p => decide (p.1 ≠ aid)) [(aid, card)] = [] := by
      simp
    have h1 : List.filter (fun p => decide (p.1 ≠ aid)) o.agents =
        o.agents :=
      List.filter_eq_self.mpr (fun p hp => by simp [hnew p hp])
    rw [h1, h2, List.append_nil]
  constructor
  · show (unregister_agent (add_agent o aid card) ident).1 = o
    simp only [unregister_agent, hf]
    rw [hins, herase]
    rw [← hsync]
  · simp [unregister_agent, hf]

/-- C7 amended witness: register `"a"` over a benign prior registry and
unregister by its registry id; the prior state is restored. -/
theorem register_unregister_roundtrip_witness :
    (unregister_agent (add_agent benignOrch "a" newCard) "a").1 =
      benignOrch ∧
    (unregister_agent (add_agent benignOrch "a" newCard) "a").2.success =
      true :=
  register_unregister_roundtrip benignOrch "a" newCard "a" rfl
    (by decide) (by decide) (by decide)

/-- C8 amended: HTTP-level failure, a protocol-level `error` field, and
absence of a `result` field are surfaced to the forwarder's caller as
raised errors; but an unrecognized `result` shape is NOT raised — it is
returned as the plain string "Unexpected response format from agent". -/
theorem forwarding_failures_surfaced :
    (∀ (e : HttpErr) (polls : Nat → Except HttpErr Json),
      forward_request_to_agent (.error e) polls =
        .error ("HTTP error " ++ toString e.status ++ ": " ++ e.text)) ∧
    (∀ (j : Json) (polls : Nat → Except HttpErr Json),
      j.hasKey "error" = true →
      forward_request_to_agent (.ok j) polls =
        .error ("Request forwarding failed: " ++ ("Agent returned error: " ++
          (j.getD "error" .null).render))) ∧
    (∀ (j : Json) (polls : Nat → Except HttpErr Json),
      j.hasKey "error" = false → j.hasKey "result" = false →
      forward_request_to_agent (.ok j) polls =
        .error "Request forwarding failed: No result in agent response") ∧
    (∀ (j : Json) (polls : Nat → Except HttpErr Json),
      j.hasKey "error" = false → j.hasKey "result" = true →
      unrecognizedShape (j.getD "result" .null) = true →
      forward_request_to_agent (.ok j) polls =
        .ok "Unexpected response format from agent") := by
  refine ⟨fun e polls => rfl, ?_, ?_, ?_⟩
  · intro j polls h
    simp [forward_request_to_agent, forward_inner, h]
  · intro j polls h1 h2
    simp [forward_request_to_agent, forward_inner, h1, h2]
  · intro j polls h1 h2 h3
    cases hm : j.getD "result" Json.null with
    | obj fs =>
      rw [hm] at h3
      simp only [unrecognizedShape, Bool.and_eq_true, Bool.not_eq_true'] at h3
      simp [forward_request_to_agent, forward_inner, h1, h2, hm,
        h3.1, h3.2]
    | null => simp [forward_request_to_agent, forward_inner, h1, h2, hm]
    | bool b => simp [forward_request_to_agent, forward_inner, h1, h2, hm]
    | num n => simp [forward_request_to_agent, forward_inner, h1, h2, hm]
    | str s => simp [forward_request_to_agent, forward_inner, h1, h2, hm]
    | arr xs => simp [forward_request_to_agent, forward_inner, h1, h2, hm]

/-- C8 amended witness: the three raising conditions raise, the
unrecognized shape is returned as a plain string. -/
theorem forwarding_failures_surfaced_witness :
    forward_request_to_agent
        (.error { status := 500, text := "Internal Server Error" })
        (fun _ => .ok workingJson) =
      .error ("HTTP error " ++ toString (500 : Nat) ++
        ": Internal Server Error") ∧
    forward_request_to_agent (.ok (.obj [("error", .str "boom")]))
        (fun _ => .ok workingJson) =
      .error "Request forwarding failed: Agent returned error: boom" ∧
    forward_request_to_agent (.ok (.obj [("x", .null)]))
        (fun _ => .ok workingJson) =
      .error "Request forwarding failed: No result in agent response" ∧
    forward_request_to_agent (.ok (.obj [("result", .num 42), ("z", .null)]))
        (fun _ => .ok workingJson) =
      .ok "Unexpected response format from agent" :=
  ⟨forwarding_failures_surfaced.1 ⟨500, "Internal Server Error"⟩
     (fun _ => .ok workingJson),
   forwarding_failures_surfaced.2.1 (.obj [("error", .str "boom")])
     (fun _ => .ok workingJson) (by decide),
   forwarding_failures_surfaced.2.2.1 (.obj [("x", .null)])
     (fun _ => .ok workingJson) (by decide) (by decide),
   forwarding_failures_surfaced.2.2.2 (.obj [("result", .num 42), ("z", .null)])
     (fun _ => .ok workingJson) (by decide) (by decide) (by decide)⟩

/-! ## Scoring decomposition (for the fallback-path claims) -/

/-- The keyword pass adds exactly one point per matching tag. -/
theorem keyword_fold_eq (ks : List String) (m : String → Bool) (q : ℚ) :
    ks.foldl (fun score keyword => if m keyword then score + 1 else score) q =
      q + (ks.countP m : ℚ) := by
  induction ks generalizing q with
  | nil => simp
  | cons k t ih =>
    by_cases h : m k <;>
      simp [List.countP_cons, h, ih] <;> push_cast <;> ring

/-- The skill pass adds exactly 1.5 per matching skill and appends the
names of the matching skills in order. -/
theorem skill_fold_eq (skills : List AgentSkill) (f : AgentSkill → Bool)
    (q : ℚ) (acc : List String) :
    skills.foldl
        (fun p skill =>
          if f skill then (p.1 + 3/2, p.2 ++ [skill.name]) else p)
        (q, acc) =
      (q + (3/2) * (skills.countP f : ℚ),
       acc ++ (skills.filter f).map AgentSkill.name) := by
  induction skills generalizing q acc with
  | nil => simp
  | cons s t ih =>
    by_cases h : f s
    · simp only [List.foldl_cons, h, if_true, ih, List.countP_cons,
        List.filter_cons, List.map_cons]
      refine Prod.ext ?_ ?_
      · show q + 3/2 + (3/2) * (t.countP f : ℚ) =
          q + (3/2) * ((t.countP f + 1 : ℕ) : ℚ)
        push_cast
        ring
      · show acc ++ [s.name] ++ (t.filter f).map AgentSkill.name =
          acc ++ s.name :: (t.filter f).map AgentSkill.name
        simp
    · simp only [List.foldl_cons, h, if_false, ih, List.countP_cons,
        List.filter_cons, List.map_cons]
      simp [h]

/-- Decomposed `_calculate_agent_score`: tag-match count plus 1.5 times
skill-match count, with the matching skill names as output. -/
theorem calculate_agent_score_eq (skw : SkillKW) (request : String)
    (card : AgentCard) :
    calculate_agent_score skw request card =
      (((agentTags card).countP
          (fun kw => strContains (pyLower request) (pyLower kw)) : ℚ) +
        (3/2) * (card.skills.countP
          (fun s => skill_matches_request skw s.name request) : ℚ),
       (card.skills.filter
          (fun s => skill_matches_request skw s.name request)).map
         AgentSkill.name) := by
  unfold calculate_agent_score
  simp only [keyword_fold_eq, skill_fold_eq]
  simp

/-- A zero total score means no tag matched and no skill matched. -/
theorem no_matches_of_score_zero (skw : SkillKW) (request : String)
    (card : AgentCard)
    (h : (calculate_agent_score skw request card).1 = 0) :
    (agentTags card).countP
        (fun kw => strContains (pyLower request) (pyLower kw)) = 0 ∧
    card.skills.countP
        (fun s => skill_matches_request skw s.name request) = 0 := by
  rw [calculate_agent_score_eq] at h
  simp only at h
  have ha : (0 : ℚ) ≤ ((agentTags card).countP
      (fun kw => strContains (pyLower request) (pyLower kw)) : ℚ) :=
    Nat.cast_nonneg _
  have hb : (0 : ℚ) ≤ (card.skills.countP
      (fun s => skill_matches_request skw s.name request) : ℚ) :=
    Nat.cast_nonneg _
  constructor
  · have : ((agentTags card).countP
        (fun kw => strContains (pyLower request) (pyLower kw)) : ℚ) = 0 := by
      nlinarith
    exact_mod_cast this
  · have : ((card.skills.countP
        (fun s => skill_matches_request skw s.name request)) : ℚ) = 0 := by
      nlinarith
    exact_mod_cast this

/-- A zero total score means the matched-skills output is empty. -/
theorem matched_nil_of_score_zero (skw : SkillKW) (request : String)
    (card : AgentCard)
    (h : (calculate_agent_score skw request card).1 = 0) :
    (calculate_agent_score skw request card).2 = [] := by
  have h2 := (no_matches_of_score_zero skw request card h).2
  rw [calculate_agent_score_eq]
  simp only
  rw [List.countP_eq_zero] at h2
  rw [List.filter_eq_nil_iff.mpr h2]
  rfl

/-- Under all-zero scores, the selection loop keeps no best agent and
records an empty matched-skill list for every agent. -/
theorem foldl_selectStep_zero (skw : SkillKW) (request : String) :
    ∀ (agents : Registry) (sm : List (String × List String)),
      (∀ p ∈ agents, (calculate_agent_score skw request p.2).1 = 0) →
      agents.foldl (selectStep skw request) (none, 0, sm) =
        (none, 0, sm ++ agents.map (fun p => (p.1, []))) := by
  intro agents
  induction agents with
  | nil => intro sm _; simp
  | cons p t ih =>
    intro sm h
    have hp := h p (List.mem_cons_self p t)
    have hm := matched_nil_of_score_zero skw request p.2 hp
    have hcalc : calculate_agent_score skw request p.2 = (0, []) :=
      Prod.ext hp hm
    have hstep : selectStep skw request (none, 0, sm) p =
        (none, 0, sm ++ [(p.1, [])]) := by
      simp [selectStep, hcalc]
    rw [List.foldl_cons, hstep,
      ih _ (fun q hq => h q (List.mem_cons_of_mem p hq))]
    simp

/-- Looking a key up in the all-empty matched-skill table yields `[]`. -/
theorem smGet_map_nil (l : Registry) (k : String) :
    smGet (l.map (fun p => (p.1, ([] : List String)))) k = [] := by
  induction l with
  | nil => rfl
  | cons p t ih =>
    by_cases h : p.1 = k <;> simp [smGet, List.find?_cons, h] <;>
      simpa [smGet] using ih

/-- A member found by dict lookup is an entry of the dict. -/
theorem dictGet?_mem (d : Registry) (k : String) (v : AgentCard)
    (h : dictGet? d k = some v) : (k, v) ∈ d := by
  unfold dictGet? at h
  cases hf : d.find? (fun p => p.1 = k) with
  | none => rw [hf] at h; simp at h
  | some q =>
    rw [hf] at h
    simp at h
    have hq := List.find?_some hf
    simp only [decide_eq_true_eq] at hq
    have hmem := List.mem_of_find?_eq_some hf
    have hqv : q = (k, v) := by
      obtain ⟨q1, q2⟩ := q
      simp_all
    rw [← hqv]
    exact hmem

/-- With no tag matches and no recorded skill matches, the reasoning for
the default selection notes the default ArgoCD fallback. -/
theorem generate_reasoning_default (agents : Registry) (request : String)
    (card : AgentCard) (sm : List (String × List String))
    (hcard : dictGet? agents "argocd" = some card)
    (htags : (agentTags card).countP
        (fun kw => strContains (pyLower request) (pyLower kw)) = 0)
    (hsm : smGet sm "argocd" = []) :
    generate_reasoning agents request "argocd" sm =
      .ok ("Selected " ++ card.name ++ " using default ArgoCD agent") := by
  unfold generate_reasoning
  rw [hcard]
  have hfilter : (agentTags card).filter
      (fun kw => strContains (pyLower request) (pyLower kw)) = [] :=
    List.filter_eq_nil_iff.mpr (List.countP_eq_zero.mp htags)
  simp only [hfilter, hsm]
  simp
  show ("Selected " ++ card.name) ++ " " ++ "using default ArgoCD agent" =
    "Selected " ++ card.name ++ " using default ArgoCD agent"
  rw [String.append_assoc]
  rfl

/-- Behavior of `_analyze_request` when every agent scores zero: fall back to
`"argocd"` with score 0.3 and confidence `min(0.3/5, 1) = 0.06`; if the
fallback id is not a registry key the reasoning lookup raises `KeyError`
(the analyze stage fails). -/
theorem analyze_request_fallback (agents : Registry) (skw : SkillKW)
    (request : String)
    (hzero : ∀ p ∈ agents, (calculate_agent_score skw request p.2).1 = 0) :
    analyze_request agents skw request =
      match dictGet? agents "argocd" with
      | some card =>
        .ok { selected_agent := "argocd", confidence := 3/50,
              reasoning := "Selected " ++ card.name ++
                " using default ArgoCD agent" }
      | none => .error "'argocd'" := by
  have hsel : selectBest agents skw request =
      (none, 0, agents.map (fun p => (p.1, []))) := by
    unfold selectBest
    simpa using foldl_selectStep_zero skw request agents [] hzero
  simp only [analyze_request, hsel]
  cases hc : dictGet? agents "argocd" with
  | none =>
    have herr : generate_reasoning agents request "argocd"
        (agents.map (fun p => (p.1, []))) = .error "'argocd'" := by
      unfold generate_reasoning
      rw [hc]
      rfl
    rw [herr]
    rfl
  | some card =>
    have hmem := dictGet?_mem agents "argocd" card hc
    have htags := (no_matches_of_score_zero skw request card
      (hzero _ hmem)).1
    have hreason := generate_reasoning_default agents request card
      (agents.map (fun p => (p.1, []))) hc htags
      (smGet_map_nil agents "argocd")
    rw [hreason]
    have hconf : min ((3/10 : ℚ) / 5) 1 = 3/50 := by norm_num
    simp [hconf, Except.map]

/-- C2 amended: when no agent scores above 0, the analyze stage falls
back to the default agent identity `"argocd"` with fixed score 0.3, but
the computed confidence is `min(0.3/5, 1) = 0.06`, not 0.3. If an agent
is registered under the key `"argocd"`, it is selected with confidence
0.06 and reasoning noting the default ArgoCD fallback; with zero
registered agents the fallback identity is missing from the registry, the
reasoning lookup raises, and `process_request` returns `success: false`
with an error. -/
theorem default_fallback_behavior :
    (∀ (skw : SkillKW) (net : NetBehavior) (request : String),
      process_request { agents := [], skill_keywords := skw } net request =
        errEnvelope "'argocd'") ∧
    (∀ (agents : Registry) (skw : SkillKW) (request : String)
        (card : AgentCard),
      dictGet? agents "argocd" = some card →
      (∀ p ∈ agents, (calculate_agent_score skw request p.2).1 = 0) →
      analyze_request agents skw request =
        .ok { selected_agent := "argocd", confidence := 3/50,
              reasoning := "Selected " ++ card.name ++
                " using default ArgoCD agent" }) := by
  constructor
  · intro skw net request
    rfl
  · intro agents skw request card hc hzero
    rw [analyze_request_fallback agents skw request hzero, hc]

/-- C2 amended witness: empty registry fails with the `KeyError` string;
a zero-scoring registry holding an `"argocd"` agent selects it with
confidence 3/50 = 0.06 and fallback reasoning. -/
theorem default_fallback_behavior_witness :
    process_request { agents := [], skill_keywords := update_skill_keywords [] }
      netWorking "sync my app" = errEnvelope "'argocd'" ∧
    analyze_request [("argocd", argoCard)]
        (update_skill_keywords [("argocd", argoCard)]) "hello" =
      .ok { selected_agent := "argocd", confidence := 3/50,
            reasoning := "Selected ArgoCD Agent using default ArgoCD agent" } :=
  ⟨default_fallback_behavior.1 (update_skill_keywords []) netWorking
     "sync my app",
   default_fallback_behavior.2 [("argocd", argoCard)]
     (update_skill_keywords [("argocd", argoCard)]) "hello" argoCard
     (by decide) (by decide)⟩

/-- C9: when the identity selected by the analyze stage is not a key of
the registry (as happens for the hard-coded fallback id `"argocd"` when
no such agent is registered and nothing scores above 0), the service does
not crash: the lookup failure is caught and `process_request` returns an
envelope with `success: false` and an error string. -/
theorem fallback_missing_agent_envelope (agents : Registry) (skw : SkillKW)
    (net : NetBehavior) (request : String)
    (hzero : ∀ p ∈ agents, (calculate_agent_score skw request p.2).1 = 0)
    (hmiss : dictGet? agents "argocd" = none) :
    process_request { agents := agents, skill_keywords := skw } net request =
      errEnvelope "'argocd'" ∧
    (errEnvelope "'argocd'").success = false ∧
    ((errEnvelope "'argocd'").error).isSome = true := by
  refine ⟨?_, rfl, rfl⟩
  simp only [process_request]
  rw [analyze_request_fallback agents skw request hzero, hmiss]

/-- C9 witness: one zero-scoring agent registered under a key other than
`"argocd"`; the process envelope is the error envelope. -/
theorem fallback_missing_agent_envelope_witness :
    process_request ⟨[("b", betaCard)], update_skill_keywords [("b", betaCard)]⟩
      netWorking "hello" = errEnvelope "'argocd'" ∧
    (errEnvelope "'argocd'").success = false ∧
    ((errEnvelope "'argocd'").error).isSome = true :=
  fallback_missing_agent_envelope [("b", betaCard)]
    (update_skill_keywords [("b", betaCard)]) netWorking "hello"
    (by decide) (by decide)

/-- C4 amended: if forwarding to the selected agent's endpoint fails (for
example HTTP 500), the route stage catches the error and `process`
returns `success: true` with a routing-only response that embeds the
routing decision — selected agent name, confidence, and reasoning —
alongside the forwarding error text, with metadata status
`routing_only`; the pipeline is not aborted. -/
theorem forwarding_failure_routing_only (o : OrchState) (net : NetBehavior)
    (request : String) (an : Analyzed) (card : AgentCard) (m : String)
    (han : analyze_request o.agents o.skill_keywords request = .ok an)
    (hcard : dictGet? o.agents an.selected_agent = some card)
    (hfwd : forward_request_to_agent (net card.url).1 (net card.url).2 =
      .error m) :
    process_request o net request =
      { success := true, selected_agent_id := some an.selected_agent,
        selected_agent_name := some card.name,
        confidence := some an.confidence, reasoning := some an.reasoning,
        response := some ("🎯 Smart Routing Decision\n\n" ++
          "✅ Selected Agent: " ++ card.name ++ "\n" ++
          "🔗 Endpoint: " ++ card.url ++ "\n" ++
          "📊 Confidence: " ++ fmt2 an.confidence ++ "\n" ++
          "🧠 Reasoning: " ++ an.reasoning ++ "\n\n" ++
          "⚠️ Could not forward request: " ++ m ++ "\n" ++
          "💡 Connect directly to " ++ card.name ++ " at " ++ card.url),
        status := some "routing_only", error := none } := by
  simp only [process_request, han]
  simp only [route_to_agent, hcard, hfwd]

set_option maxRecDepth 8192 in
/-- C4 amended witness: the currency agent setup with an endpoint that
answers HTTP 500. -/
theorem forwarding_failure_routing_only_witness :
    process_request currencyOrch net500 usdRequest =
      { success := true, selected_agent_id := some "currency",
        selected_agent_name := some "Currency Agent",
        confidence := some (7/10),
        reasoning := some ("Selected Currency Agent based on keywords: " ++
          "usd, inr and skills: currency_exchange"),
        response := some ("🎯 Smart Routing Decision\n\n" ++
          "✅ Selected Agent: Currency Agent\n" ++
          "🔗 Endpoint: http://localhost:8002\n" ++
          "📊 Confidence: 0.70\n" ++
          "🧠 Reasoning: Selected Currency Agent based on keywords: " ++
          "usd, inr and skills: currency_exchange\n\n" ++
          "⚠️ Could not forward request: HTTP error 500: " ++
          "Internal Server Error\n" ++
          "💡 Connect directly to Currency Agent at http://localhost:8002"),
        status := some "routing_only", error := none } :=
  forwarding_failure_routing_only currencyOrch net500 usdRequest
    { selected_agent := "currency", confidence := 7/10,
      reasoning := "Selected Currency Agent based on keywords: " ++
        "usd, inr and skills: currency_exchange" }
    currencyCard "HTTP error 500: Internal Server Error"
    (by decide) (by decide) (by decide)

end RatEval

end Orchestrator
